import Mathlib

/-!
Verification of the training-screen recognition module
`auto_derby/scenes/single_mode/training.py`.

The Python module consumes external collaborators (an OCR engine, a
template matcher, and image-processing primitives from `imagetools`)
that are not part of this repository snapshot.  Those collaborators
enter the model as explicit parameters: every quantity the module only
obtains from them (an OCR text, a mask average, a pixel color, a
template-match flag, a resize-proxy scaling) is a parameter of the
corresponding Lean function, while every computation the module itself
performs is translated directly from the source.
-/

namespace AutoDerby

/-- Modelled from the spec: the scenario enumeration (`Context.SCENARIO_*`;
the `Context` class lives outside this snapshot).  The seven constructors
are the scenario constants named by `training.py`; `SCENARIO_UNKNOWN`
stands for any scenario value outside that supported set. -/
inductive Scenario
  | SCENARIO_URA
  | SCENARIO_AOHARU
  | SCENARIO_CLIMAX
  | SCENARIO_GRAND_LIVE
  | SCENARIO_GRAND_MASTERS
  | SCENARIO_PROJECT_LARK
  | SCENARIO_UAF_READY_GO
  | SCENARIO_UNKNOWN
  deriving DecidableEq, Repr

/-- Modelled from the spec: the training-type constants (`Training.TYPE_*`;
the `Training` class lives outside this snapshot).  `TYPE_UNKNOWN` stands
for any type value outside the vitality table of `_estimate_vitality`. -/
inductive TrainingType
  | TYPE_SPEED
  | TYPE_STAMINA
  | TYPE_POWER
  | TYPE_GUTS
  | TYPE_WISDOM
  | TYPE_UNKNOWN
  deriving DecidableEq, Repr

/-- Modelled from the spec: the partner-type constants (`Partner.TYPE_*`;
the `Partner` class lives outside this snapshot). -/
inductive PartnerType
  | TYPE_SPEED
  | TYPE_STAMINA
  | TYPE_POWER
  | TYPE_GUTS
  | TYPE_WISDOM
  | TYPE_FRIEND
  | TYPE_GROUP
  | TYPE_TEAMMATE
  | TYPE_OTHER
  deriving DecidableEq, Repr

/-- An RGB color, components as rationals. -/
abbrev Color := ℚ × ℚ × ℚ

/-- Squared Euclidean distance between two colors. -/
def distSq (a b : Color) : ℚ :=
  (a.1 - b.1) ^ 2 + (a.2.1 - b.2.1) ^ 2 + (a.2.2 - b.2.2) ^ 2

/-- Modelled from the spec: `imagetools.compare_color` /
`imagetools.compare_color_near` (outside this snapshot) score two colors
by `1 - dist / maxDist` where `dist` is the Euclidean color distance and
`maxDist` the distance between black and white.  `similarityExceeds a b t`
decides `similarity a b > t`; it is stated on squared distances so that
everything stays inside the rationals:  for `t ≤ 1`,
`1 - d/D > t ↔ d^2 < (1-t)^2 * D^2` with `D^2 = 3 * 255^2`. -/
def similarityExceeds (a b : Color) (t : ℚ) : Bool :=
  decide (distSq a b < (1 - t) ^ 2 * (3 * 255 ^ 2))

/-! ### Python `int()` and related text processing -/

/-- Python `str.strip()` as used by `int()`: drop whitespace at both ends. -/
def pyStrip (cs : List Char) : List Char :=
  ((cs.dropWhile Char.isWhitespace).reverse.dropWhile Char.isWhitespace).reverse

/-- Value of a digit string, most significant first. -/
def digitsToNat (cs : List Char) : ℕ :=
  cs.foldl (fun a c => 10 * a + (c.toNat - 48)) 0

/-- Parse a nonempty run of ASCII digits, as the unsigned part of Python
`int()`. -/
def pyDigits (cs : List Char) : Option ℕ :=
  if cs ≠ [] ∧ cs.all Char.isDigit then some (digitsToNat cs) else none

/-- Python `int(s)`: strip surrounding whitespace, allow one leading sign,
then require a nonempty all-digit remainder; anything else raises
`ValueError` (modelled as `none`).  Digit-grouping underscores are not
modelled. -/
def pyInt (s : String) : Option ℤ :=
  match pyStrip s.toList with
  | [] => none
  | c :: rest =>
      if c = '-' then (pyDigits rest).map (fun m => -(m : ℤ))
      else if c = '+' then (pyDigits rest).map (fun m => (m : ℤ))
      else (pyDigits (c :: rest)).map (fun m => (m : ℤ))

/-- Python `text.lstrip("+")`: drop every leading plus sign. -/
def lstripPlus (s : String) : String :=
  String.mk (s.toList.dropWhile (fun c => c = '+'))

/-! ### Effect-digit recognizers (`_recognize_base_effect`, lines 38-145,
and `_recognize_red_effect`, lines 148-248)

The image-processing stages (sharpen, outline masks, gradient color key,
small-component removal) are collaborator calls; the function inspects
their outcome only through three values, which become parameters:
`text_nonzero` (`cv2.countNonZero(text_img)`), `hash_sim` (the best
perceptual-hash similarity against the known "+100" hash table), and
`ocr_text` (the OCR result on the glyph mask). -/

/-- Decision tail of `_recognize_base_effect` (lines 126-145): glyph masks
with fewer than 100 foreground pixels are skin-match noise and yield 0;
a perceptual-hash similarity above 0.9 against the "+100" table yields
100 without OCR; otherwise the OCR text decides: empty text yields 0,
else leading plus signs are dropped and Python `int()` parses the rest,
propagating `ValueError` on non-numeric text. -/
def _recognize_base_effect (text_nonzero : ℕ) (hash_sim : ℚ) (ocr_text : String) :
    Except String ℤ :=
  if text_nonzero < 100 then .ok 0
  else if hash_sim > 9 / 10 then .ok 100
  else if ocr_text = "" then .ok 0
  else
    match pyInt (lstripPlus ocr_text) with
    | some n => .ok n
    | none => .error "ValueError: invalid literal for int"

/-- Decision tail of `_recognize_red_effect` (lines 245-248): empty OCR
text yields 0, else leading plus signs are dropped and Python `int()`
parses the rest, propagating `ValueError` on non-numeric text. -/
def _recognize_red_effect (ocr_text : String) : Except String ℤ :=
  if ocr_text = "" then .ok 0
  else
    match pyInt (lstripPlus ocr_text) with
    | some n => .ok n
    | none => .error "ValueError: invalid literal for int"

/-- `_recognize_failure_rate` (lines 265-300), decision tail: the OCR text
read from the failure-rate region is reduced to its digits
(`re.sub("[^0-9]", "", text)`), parsed by `int()` (raising on a digitless
text), and divided by 100. -/
def _recognize_failure_rate (ocr_text : String) : Except String ℚ :=
  match pyInt (String.mk (ocr_text.toList.filter Char.isDigit)) with
  | some n => .ok ((n : ℚ) / 100)
  | none => .error "ValueError: invalid literal for int"

/-! ### Vitality estimator (`_estimate_vitality`, lines 303-315) -/

/-- The `vit_data` table of `_estimate_vitality`: per-type level-indexed
vitality coefficients; types outside the table are absent. -/
def vit_data : TrainingType → Option (List ℚ)
  | .TYPE_SPEED => some [-21, -22, -23, -25, -27]
  | .TYPE_STAMINA => some [-19, -20, -21, -23, -25]
  | .TYPE_POWER => some [-20, -21, -22, -24, -26]
  | .TYPE_GUTS => some [-22, -23, -24, -26, -28]
  | .TYPE_WISDOM => some [5, 5, 5, 5, 5]
  | .TYPE_UNKNOWN => none

/-- Python list indexing `l[i]`: non-negative indices below the length,
negative indices counted from the end, `IndexError` otherwise. -/
def pyIndex (l : List ℚ) (i : ℤ) : Except String ℚ :=
  if h : 0 ≤ i ∧ i < (l.length : ℤ) then
    .ok (l.get ⟨i.toNat, by omega⟩)
  else if h2 : -(l.length : ℤ) ≤ i ∧ i < 0 then
    .ok (l.get ⟨(i + (l.length : ℤ)).toNat, by omega⟩)
  else .error "IndexError"

/-- `_estimate_vitality` (lines 303-315): types outside `vit_data` yield 0;
otherwise the level-indexed coefficient (`[trn.level - 1]`, Python
indexing) divided by the caller-supplied `ctx.max_vitality`. -/
def _estimate_vitality (t : TrainingType) (level : ℤ) (max_vitality : ℚ) :
    Except String ℚ :=
  match vit_data t with
  | none => .ok 0
  | some coeffs => (pyIndex coeffs (level - 1)).map (fun c => c / max_vitality)

/-! ### Bond ("soul") ratio (`_recognize_soul`, lines 520-590)

Parameters: `is_full` is the template-match outcome against
`SINGLE_MODE_AOHARU_SOUL_FULL`; `fg_avg` is `np.average(fg_mask2)`, the
average of the foreground mask; `empty_avg` is `np.average(empty_mask)`,
the average of the empty-gauge mask.  The constant 45 is the source's
`outline_avg`. -/

/-- `_recognize_soul` decision structure: a full-gauge template match is
exactly 1; a foreground-mask average below 100 is unreadable and yields
the sentinel -1; otherwise the fill estimate
`1 - empty_avg / (fg_avg - 45)` is clamped into the unit interval. -/
def _recognize_soul (is_full : Bool) (fg_avg empty_avg : ℚ) : ℚ :=
  if is_full then 1
  else if fg_avg < 100 then -1
  else max 0 (min 1 (1 - empty_avg / (fg_avg - 45)))

/-! ### Partner-icon recognizers (lines 359-517) -/

/-- Marker recognizers `_recognize_has_training` (lines 391-415): outside
the Aoharu scenario the marker is absent; otherwise the constant-color
mask average over the mark region is compared against the cutoff 80. -/
def _recognize_has_training (scenario : Scenario) (mask_avg : ℚ) : Bool :=
  if scenario ≠ .SCENARIO_AOHARU then false
  else mask_avg > 80

/-- `_recognize_has_soul_burst` (lines 418-442): same structure as
`_recognize_has_training`, with its own target color. -/
def _recognize_has_soul_burst (scenario : Scenario) (mask_avg : ℚ) : Bool :=
  if scenario ≠ .SCENARIO_AOHARU then false
  else mask_avg > 80

/-- `_recognize_has_hint` (lines 381-388): hint-mark mask average above
200. -/
def _recognize_has_hint (mask_avg : ℚ) : Bool :=
  mask_avg > 200

/-- The `type_colors` table of `_recognize_type_color` (lines 361-369). -/
def type_colors : List (Color × PartnerType) :=
  [((36, 170, 255), .TYPE_SPEED),
   ((255, 106, 86), .TYPE_STAMINA),
   ((255, 151, 27), .TYPE_POWER),
   ((255, 96, 156), .TYPE_GUTS),
   ((3, 191, 126), .TYPE_WISDOM),
   ((255, 179, 22), .TYPE_FRIEND),
   ((249, 255, 240), .TYPE_GROUP)]

/-- `_recognize_type_color` (lines 359-378): the first of the seven type
colors whose similarity to the sampled type pixel exceeds 0.9 wins;
no match yields `TYPE_OTHER`.  (The source reverses the color with
`[::-1]` only to match the BGR layout of the cv image.) -/
def _recognize_type_color (px : Color) : PartnerType :=
  (type_colors.find? (fun cv => similarityExceeds px cv.1 (9 / 10))).elim
    PartnerType.TYPE_OTHER Prod.snd

/-- The `spec` decision table of `_recognize_partner_level`
(lines 445-504): six patterns (bond level 0 to 5), each a list of
(position, expected color) checks.  Positions are the source's
`pos[0]`..`pos[4]` = (10,65), (20,65), (33,65), (43,65), (55,65) in the
540-unit logical space; colors are the source's `colors[0]`..`colors[5]`. -/
def level_spec : List (List ((ℤ × ℤ) × Color)) :=
  [ -- level 0
    [((10, 65), (109, 108, 119)), ((20, 65), (109, 108, 119)),
     ((33, 65), (109, 108, 119)), ((43, 65), (109, 108, 119)),
     ((55, 65), (109, 108, 119))],
    -- level 1
    [((10, 65), (42, 192, 255)), ((20, 65), (109, 108, 119)),
     ((33, 65), (109, 108, 119)), ((43, 65), (109, 108, 119)),
     ((55, 65), (109, 108, 119))],
    -- level 2
    [((10, 65), (42, 192, 255)), ((20, 65), (42, 192, 255)),
     ((43, 65), (109, 108, 119)), ((55, 65), (109, 108, 119))],
    -- level 3
    [((10, 65), (162, 230, 30)), ((20, 65), (162, 230, 30)),
     ((33, 65), (162, 230, 30)), ((55, 65), (109, 108, 119))],
    -- level 4
    [((10, 65), (255, 173, 30)), ((20, 65), (255, 173, 30)),
     ((33, 65), (255, 173, 30)), ((43, 65), (255, 173, 30))],
    -- level 5
    [((10, 65), (255, 235, 120)), ((55, 65), (255, 235, 120))] ]

/-- A pattern of `level_spec` matches when every one of its checks has
color similarity above 0.95 at its position (`compare_color_near ... >
0.95` in the source). -/
def patternMatches (pixel : ℤ × ℤ → Color) (s : List ((ℤ × ℤ) × Color)) : Bool :=
  s.all (fun pc => similarityExceeds (pixel pc.1) pc.2 (95 / 100))

/-- The `for level, s in enumerate(spec)` loop of
`_recognize_partner_level`: first fully matching pattern wins, counting
from `lvl`. -/
def _recognize_partner_level_go (pixel : ℤ × ℤ → Color) :
    List (List ((ℤ × ℤ) × Color)) → ℤ → ℤ
  | [], _ => -1
  | s :: rest, lvl =>
      if patternMatches pixel s then lvl
      else _recognize_partner_level_go pixel rest (lvl + 1)

/-- `_recognize_partner_level` (lines 445-517): the icon is presented as
its pixel-color sampling function; the result is the first matching
bond level, or -1 when no pattern matches. -/
def _recognize_partner_level (pixel : ℤ × ℤ → Color) : ℤ :=
  _recognize_partner_level_go pixel level_spec 0

/-- A bounding box, as the Python 4-tuple (left, top, right, bottom). -/
abbrev Vector4 := ℤ × ℤ × ℤ × ℤ

/-- Modelled from the spec: the fields of `training.Partner` that
`_recognize_partner_icon` fills in (the `Partner` class lives outside
this snapshot).  The stat-type field is named `ptype` because `type` is
not a valid field name in Lean. -/
structure Partner where
  icon_bbox : Vector4
  level : ℤ
  soul : ℚ
  has_hint : Bool
  has_training : Bool
  has_soul_burst : Bool
  ptype : PartnerType
  deriving DecidableEq, Repr

/-- Modelled from the spec: the fields of `single_mode.Training` that the
claims inspect (the `Training` class lives outside this snapshot). -/
structure Training where
  ttype : TrainingType
  level : ℤ
  deriving DecidableEq, Repr

/-- Modelled from the spec: the fields of `single_mode.Context` that
`training.py` reads or writes (the `Context` class lives outside this
snapshot). -/
structure Context where
  scenario : Scenario
  is_summer_camp : Bool
  max_vitality : ℚ
  trainings : List Training
  training_levels : List (TrainingType × ℤ)

/-- The image measurements that `_recognize_partner_icon` obtains from
its collaborators for one icon region: the pixel sampling used by the
bond-level table, the mark-region mask averages, the soul-gauge
measurements, the hint mask average and the sampled type pixel. -/
structure IconSignals where
  level_pixel : ℤ × ℤ → Color
  burst_mask_avg : ℚ
  training_mask_avg : ℚ
  soul_is_full : Bool
  soul_fg_avg : ℚ
  soul_empty_avg : ℚ
  hint_mask_avg : ℚ
  type_pixel : Color

/-- The `has_soul_burst` local of `_recognize_partner_icon`
(lines 601-605): false unless the scenario is Aoharu, in which case
`_recognize_has_soul_burst` decides. -/
def _partner_has_soul_burst (ctx : Context) (ic : IconSignals) : Bool :=
  if ctx.scenario = .SCENARIO_AOHARU then
    _recognize_has_soul_burst ctx.scenario ic.burst_mask_avg
  else false

/-- The `has_training` local of `_recognize_partner_icon`
(lines 602-610): false unless the scenario is Aoharu; under soul burst it
is forced true, otherwise `_recognize_has_training` decides. -/
def _partner_has_training (ctx : Context) (ic : IconSignals) : Bool :=
  if ctx.scenario = .SCENARIO_AOHARU then
    (if _partner_has_soul_burst ctx ic then true
     else _recognize_has_training ctx.scenario ic.training_mask_avg)
  else false

/-- The `soul` local of `_recognize_partner_icon` (lines 601-611): the
sentinel -1 unless the scenario is Aoharu; under soul burst it is forced
to 1, otherwise `_recognize_soul` decides. -/
def _partner_soul (ctx : Context) (ic : IconSignals) : ℚ :=
  if ctx.scenario = .SCENARIO_AOHARU then
    (if _partner_has_soul_burst ctx ic then 1
     else _recognize_soul ic.soul_is_full ic.soul_fg_avg ic.soul_empty_avg)
  else -1

/-- `_recognize_partner_icon` (lines 593-629): recognize bond level and
the scenario-gated markers; when both the level and the soul ratio are
undetermined (negative) no Partner is produced; otherwise the Partner
record is filled in, re-forcing `has_training` and `soul` under soul
burst (lines 622-624) and upgrading an unmatched type to `TYPE_TEAMMATE`
when a valid soul ratio was recognized (lines 626-627). -/
def _recognize_partner_icon (ctx : Context) (ic : IconSignals) (bbox : Vector4) :
    Option Partner :=
  let level := _recognize_partner_level ic.level_pixel
  let has_soul_burst := _partner_has_soul_burst ctx ic
  let has_training := _partner_has_training ctx ic
  let soul := _partner_soul ctx ic
  if level < 0 ∧ soul < 0 then none
  else
    let ptype0 := _recognize_type_color ic.type_pixel
    some
      { icon_bbox := bbox
        level := level
        soul := if has_soul_burst then 1 else soul
        has_hint := _recognize_has_hint ic.hint_mask_avg
        has_training := if has_soul_burst then true else has_training
        has_soul_burst := has_soul_burst
        ptype := if 0 ≤ soul ∧ ptype0 = PartnerType.TYPE_OTHER then
            PartnerType.TYPE_TEAMMATE
          else ptype0 }

/-! ### Scenario geometry tables

The resize proxy (`mathtools.ResizeProxy`, outside this snapshot) scales
a coordinate from the 540-unit logical width to the screenshot width; it
enters the model as an abstract scaling function `rp : ℤ → ℤ` applied to
each coordinate, exactly where the source calls `rp.vector`,
`rp.vector2` or `rp.vector4`. -/

/-- `_iter_training_confirm_pos` (lines 318-334): the Project-Lark
scenario has its own five slot centers; every other scenario value gets
the default layout — there is no raising branch in this lookup. -/
def _iter_training_confirm_pos (rp : ℤ → ℤ) (scenario : Scenario) :
    List (ℤ × ℤ) :=
  if scenario = .SCENARIO_PROJECT_LARK then
    [(rp 33, rp 835), (rp 121, rp 835), (rp 209, rp 835),
     (rp 297, rp 835), (rp 385, rp 835)]
  else
    [(rp 78, rp 850), (rp 171, rp 850), (rp 268, rp 850),
     (rp 367, rp 850), (rp 461, rp 850)]

/-- Which effect-digit recognizer variant a bounding-box group is paired
with in `_effect_recognitions`. -/
inductive EffectVariant
  | base
  | red
  deriving DecidableEq, Repr

/-- The `_bbox_groups` helper of `_effect_recognitions` (lines 690-698):
the six effect-column bounding boxes between rows `t` and `b`. -/
def _bbox_groups (rp : ℤ → ℤ) (t b : ℤ) : List Vector4 :=
  [(rp 18, rp t, rp 104, rp b), (rp 104, rp t, rp 190, rp b),
   (rp 190, rp t, rp 273, rp b), (rp 273, rp t, rp 358, rp b),
   (rp 358, rp t, rp 441, rp b), (rp 448, rp t, rp 521, rp b)]

/-- `_effect_recognitions` (lines 682-715): the per-scenario effect-column
rows and recognizer variants; a scenario outside the supported set raises
`NotImplementedError`. -/
def _effect_recognitions (rp : ℤ → ℤ) (scenario : Scenario) :
    Except String (List (List Vector4 × EffectVariant)) :=
  if scenario = .SCENARIO_URA then
    .ok [(_bbox_groups rp 582 616, .base)]
  else if scenario = .SCENARIO_AOHARU then
    .ok [(_bbox_groups rp 597 625, .base), (_bbox_groups rp 570 595, .red)]
  else if scenario = .SCENARIO_CLIMAX ∨ scenario = .SCENARIO_GRAND_LIVE ∨
      scenario = .SCENARIO_GRAND_MASTERS ∨ scenario = .SCENARIO_PROJECT_LARK ∨
      scenario = .SCENARIO_UAF_READY_GO then
    .ok [(_bbox_groups rp 595 623, .base), (_bbox_groups rp 568 593, .red)]
  else .error "NotImplementedError"

/-- The scenario-keyed dictionary lookup opening `_recognize_partners`
(lines 635-664): the partner-icon stack's first bounding box and vertical
stride per scenario; a scenario outside the dictionary raises `KeyError`. -/
def _recognize_partners_geometry (rp : ℤ → ℤ) (scenario : Scenario) :
    Except String (Vector4 × ℤ) :=
  match scenario with
  | .SCENARIO_URA => .ok ((rp 448, rp 146, rp 516, rp 220), rp 90)
  | .SCENARIO_AOHARU => .ok ((rp 448, rp 147, rp 516, rp 220), rp 86)
  | .SCENARIO_CLIMAX => .ok ((rp 448, rp 147, rp 516, rp 220), rp 90)
  | .SCENARIO_GRAND_MASTERS => .ok ((rp 448, rp 147, rp 516, rp 220), rp 90)
  | .SCENARIO_GRAND_LIVE => .ok ((rp 448, rp 147, rp 516, rp 220), rp 86)
  | .SCENARIO_PROJECT_LARK => .ok ((rp 448, rp 147, rp 516, rp 220), rp 86)
  | .SCENARIO_UAF_READY_GO => .ok ((rp 448, rp 147, rp 516, rp 220), rp 86)
  | .SCENARIO_UNKNOWN => .error "KeyError"

/-- The `while icon_bbox[2] < icons_bottom` loop of `_recognize_partners`
(lines 666-676): recognize an icon, stop silently on the first region
that yields no Partner, otherwise collect it and shift the box down by
the vertical stride.  The Python loop has no iteration bound of its own,
so the model carries explicit fuel. -/
def _recognize_partners_go (recog : Vector4 → Option Partner) (off bottom : ℤ) :
    ℕ → Vector4 → List Partner
  | 0, _ => []
  | n + 1, bbox =>
      if bbox.2.2.1 < bottom then
        match recog bbox with
        | none => []
        | some v =>
            v :: _recognize_partners_go recog off bottom n
              (bbox.1, bbox.2.1 + off, bbox.2.2.1, bbox.2.2.2 + off)
      else []

/-- `_recognize_partners` (lines 632-676): geometry lookup (which can
raise `KeyError`), then the icon-enumeration loop. -/
def _recognize_partners (ctx : Context) (rp : ℤ → ℤ)
    (icon : Vector4 → IconSignals) (fuel : ℕ) : Except String (List Partner) :=
  match _recognize_partners_geometry rp ctx.scenario with
  | .error e => .error e
  | .ok (bbox0, off) =>
      .ok (_recognize_partners_go
        (fun b => _recognize_partner_icon ctx (icon b) b) off (rp 578) fuel bbox0)

/-! ### Orchestrator (`TrainingScene.recognize_v2`, lines 835-849) -/

/-- `TrainingScene.recognize_v2`, decision tail: the worker pool's
results (in submission order) become `self.trainings`; the assertion
`len(set(i.type for i in self.trainings)) == len(self.trainings)` then
raises `AssertionError("duplicated trainings")` on a duplicated training
type, which aborts the call before anything is written to the context;
otherwise the context receives the trainings and, outside summer camp,
the type-to-level mapping.  The result pairs the scene's `trainings`
attribute (assigned before the assertion) with the context outcome. -/
def recognize_v2 (ctx : Context) (results : List Training) :
    List Training × Except String Context :=
  (results,
   if (results.map Training.ttype).dedup.length = results.length then
     .ok { ctx with
       trainings := results
       training_levels :=
         if ctx.is_summer_camp then ctx.training_levels
         else results.map (fun i => (i.ttype, i.level)) }
   else .error "duplicated trainings")

/-! ## Helper lemmas -/

/-- Python's `len(set(l)) == len(l)` test succeeds exactly on
duplicate-free lists. -/
theorem dedup_length_eq_iff_nodup {α : Type _} [DecidableEq α] (l : List α) :
    l.dedup.length = l.length ↔ l.Nodup := by
  constructor
  · intro h
    exact List.dedup_eq_self.mp ((List.dedup_sublist l).eq_of_length h)
  · intro h
    rw [List.dedup_eq_self.mpr h]

/-- Injectivity of the success constructor of `Except`. -/
theorem ok_inj {α : Type _} {a b : α} (h : (Except.ok a : Except String α) = .ok b) :
    a = b :=
  (Except.ok.injEq _ _).mp h

/-- Dividing by a common positive denominator preserves strict comparison
of absolute values. -/
theorem abs_div_lt_abs_div {a b mv : ℚ} (hmv : 0 < mv) (h : |a| < |b|) :
    |a / mv| < |b / mv| := by
  rw [abs_div, abs_div, abs_of_pos hmv]
  gcongr

/-- Whitespace-stripping only drops characters. -/
theorem mem_pyStrip {c : Char} {cs : List Char} (h : c ∈ pyStrip cs) : c ∈ cs := by
  unfold pyStrip at h
  rw [List.mem_reverse] at h
  have h2 := (List.dropWhile_sublist _).mem h
  rw [List.mem_reverse] at h2
  exact (List.dropWhile_sublist _).mem h2

/-- Python `int()` yields a negative value only when the text carries a
leading minus sign. -/
theorem pyInt_neg_has_minus {s : String} {n : ℤ} (h : pyInt s = some n) (hn : n < 0) :
    '-' ∈ s.toList := by
  unfold pyInt at h
  rcases hs : pyStrip s.toList with _ | ⟨c, rest⟩
  · rw [hs] at h; cases h
  · rw [hs] at h
    by_cases hc : c = '-'
    · subst hc
      exact mem_pyStrip (by rw [hs]; exact List.mem_cons_self _ _)
    · exfalso
      by_cases hc2 : c = '+'
      · simp only [hc, hc2, if_false, if_true] at h
        rcases hd : pyDigits rest with _ | m
        · rw [hd] at h; cases h
        · rw [hd] at h
          have hbm : (m : ℤ) = n := by simpa using h
          omega
      · simp only [hc, hc2, if_false] at h
        rcases hd : pyDigits (c :: rest) with _ | m
        · rw [hd] at h; cases h
        · rw [hd] at h
          have hbm : (m : ℤ) = n := by simpa using h
          omega

/-! ## Claims -/

/-- C1: after `recognize_v2` completes a recognition pass, the recognized
training types across all slots are pairwise distinct — whenever the
context outcome is a success, the exposed trainings' type list is
duplicate-free and its set of types has exactly as many members as
trainings; and when two slots report the same type, the hard
`AssertionError("duplicated trainings")` is raised and no context is
produced. -/
theorem C1_recognize_v2_distinct_types (ctx : Context) (results : List Training) :
    (∀ ctx2, (recognize_v2 ctx results).2 = .ok ctx2 →
      (ctx2.trainings.map Training.ttype).Nodup ∧
      (ctx2.trainings.map Training.ttype).dedup.length = ctx2.trainings.length) ∧
    (¬ (results.map Training.ttype).Nodup →
      (recognize_v2 ctx results).2 = .error "duplicated trainings") := by
  unfold recognize_v2
  constructor
  · intro ctx2 h
    by_cases hd : (results.map Training.ttype).dedup.length = results.length
    · simp only [hd, if_pos] at h
      obtain rfl : ctx2 = _ := (Except.ok.injEq _ _).mp h.symm
      have hnd : (results.map Training.ttype).Nodup :=
        (dedup_length_eq_iff_nodup _).mp
          (by simpa [List.length_map] using hd)
      refine ⟨hnd, ?_⟩
      simp only []
      rw [(dedup_length_eq_iff_nodup _).mpr hnd]
      simp [List.length_map]
    · simp [hd] at h
  · intro hnd
    have hd : ¬ (results.map Training.ttype).dedup.length = results.length := by
      intro h
      exact hnd ((dedup_length_eq_iff_nodup _).mp (by simpa [List.length_map] using h))
    simp [hd]

/-- C1 witness: two slots reporting `TYPE_SPEED` raise the duplicate-type
error. -/
theorem C1_recognize_v2_distinct_types_witness :
    (recognize_v2 ⟨.SCENARIO_URA, false, 100, [], []⟩
        [⟨.TYPE_SPEED, 1⟩, ⟨.TYPE_SPEED, 2⟩]).2 = .error "duplicated trainings" :=
  (C1_recognize_v2_distinct_types ⟨.SCENARIO_URA, false, 100, [], []⟩
      [⟨.TYPE_SPEED, 1⟩, ⟨.TYPE_SPEED, 2⟩]).2 (by decide)

/-- C2: the bond ratio returned by `_recognize_soul` is always -1 or lies
in the unit interval; a full-gauge template match returns exactly 1; and
without a full-gauge match a foreground-mask average below the population
threshold 100 returns -1. -/
theorem C2_recognize_soul_range (is_full : Bool) (fg_avg empty_avg : ℚ) :
    (_recognize_soul is_full fg_avg empty_avg = -1 ∨
      (0 ≤ _recognize_soul is_full fg_avg empty_avg ∧
        _recognize_soul is_full fg_avg empty_avg ≤ 1)) ∧
    _recognize_soul true fg_avg empty_avg = 1 ∧
    (fg_avg < 100 → _recognize_soul false fg_avg empty_avg = -1) := by
  unfold _recognize_soul
  refine ⟨?_, by simp, fun h => by simp [h]⟩
  cases is_full with
  | true => exact Or.inr (by norm_num)
  | false =>
    by_cases h : fg_avg < 100
    · exact Or.inl (by simp [h])
    · refine Or.inr ⟨?_, ?_⟩
      · simp only [Bool.false_eq_true, if_false, h]
        exact le_max_left 0 _
      · simp only [Bool.false_eq_true, if_false, h]
        exact max_le (by norm_num) (min_le_left 1 _)

/-- C2 witness: an unreadable gauge (foreground average 50, no full-gauge
match) returns the sentinel -1. -/
theorem C2_recognize_soul_range_witness : _recognize_soul false 50 0 = -1 :=
  (C2_recognize_soul_range false 50 0).2.2 (by norm_num)

/-- C3 counterexample: the OCR text "250" (a plausible misread of a
percentage) makes `_recognize_failure_rate` return 5/2, which is outside
the range [0, 1] the claim asserts. -/
theorem C3_failure_rate_counterexample :
    _recognize_failure_rate "250" = .ok (5 / 2) ∧ ¬ ((5 : ℚ) / 2 ≤ 1) := by
  constructor
  · simp only [_recognize_failure_rate,
      show pyInt (String.mk ("250".toList.filter Char.isDigit)) = some 250 from rfl]
    norm_num
  · norm_num

/-- C3 amended: `_recognize_failure_rate` returns the value of the digits
kept from the OCR text divided by 100 — always non-negative, but not
bounded by 1 (it is at most 1 only when the digit value is at most 100);
an OCR text with no digit at all is a hard `ValueError` failure. -/
theorem C3_failure_rate_amended :
    (∀ text q, _recognize_failure_rate text = .ok q →
      0 ≤ q ∧ ∃ m : ℕ, q = (m : ℚ) / 100 ∧ (q ≤ 1 ↔ m ≤ 100)) ∧
    (∀ text, text.toList.filter Char.isDigit = [] →
      _recognize_failure_rate text = .error "ValueError: invalid literal for int") := by
  constructor
  · intro text q h
    unfold _recognize_failure_rate at h
    rcases hp : pyInt (String.mk (text.toList.filter Char.isDigit)) with _ | n
    · rw [hp] at h; cases h
    · rw [hp] at h
      obtain rfl : q = (n : ℚ) / 100 := ((Except.ok.injEq _ _).mp h).symm
      obtain ⟨m, rfl, -⟩ : ∃ m : ℕ, n = (m : ℤ) ∧ True := by
        unfold pyInt at hp
        rcases hs : pyStrip (String.mk (text.toList.filter Char.isDigit)).toList with
          _ | ⟨c, rest⟩
        · rw [hs] at hp; cases hp
        · have hcmem : c ∈ text.toList.filter Char.isDigit := by
            have : c ∈ pyStrip (String.mk (text.toList.filter Char.isDigit)).toList := by
              rw [hs]; exact List.mem_cons_self c rest
            unfold pyStrip at this
            rw [List.mem_reverse] at this
            have := (List.dropWhile_sublist _).mem this
            rw [List.mem_reverse] at this
            exact (List.dropWhile_sublist _).mem this
          have hcdigit : c.isDigit := (List.mem_filter.mp hcmem).2
          have hcne : ¬ c = '-' := by
            intro hc; rw [hc] at hcdigit; exact absurd hcdigit (by decide)
          have hcne2 : ¬ c = '+' := by
            intro hc; rw [hc] at hcdigit; exact absurd hcdigit (by decide)
          rw [hs] at hp
          simp only [hcne, hcne2, if_false] at hp
          rcases hd : pyDigits (c :: rest) with _ | m
          · rw [hd] at hp; cases hp
          · rw [hd] at hp
            exact ⟨m, ((Option.some.injEq _ _).mp hp).symm, trivial⟩
      refine ⟨by positivity, m, rfl, ?_⟩
      rw [div_le_one (by norm_num)]
      constructor
      · intro h; exact_mod_cast h
      · intro h; exact_mod_cast h
  · intro text h
    unfold _recognize_failure_rate
    rw [show String.mk (text.toList.filter Char.isDigit) = String.mk [] by rw [h]]
    rfl

/-- C3 amended witness: the OCR text "42%" yields 42/100. -/
theorem C3_failure_rate_amended_witness :
    (0 : ℚ) ≤ 21 / 50 ∧ ∃ m : ℕ, (21 : ℚ) / 50 = (m : ℚ) / 100 ∧
      ((21 : ℚ) / 50 ≤ 1 ↔ m ≤ 100) :=
  C3_failure_rate_amended.1 "42%" (21 / 50)
    (by simp only [_recognize_failure_rate,
          show pyInt (String.mk ("42%".toList.filter Char.isDigit)) = some 42 from rfl]
        norm_num)

/-- C4 counterexample: the training-confirm slot-position lookup does not
raise on a scenario outside the supported set — for the unrecognized
scenario it silently returns the very same default layout used for the
URA scenario. -/
theorem C4_geometry_counterexample :
    _iter_training_confirm_pos (fun v => v) .SCENARIO_UNKNOWN =
      [(78, 850), (171, 850), (268, 850), (367, 850), (461, 850)] ∧
    _iter_training_confirm_pos (fun v => v) .SCENARIO_UNKNOWN =
      _iter_training_confirm_pos (fun v => v) .SCENARIO_URA :=
  ⟨rfl, rfl⟩

/-- C4 amended: the effect-column lookup raises `NotImplementedError` and
the partner-icon layout lookup raises `KeyError` exactly on scenario
values outside the supported set; the training-confirm slot-position
lookup never raises — every scenario other than Project Lark, including
an unrecognized one, silently falls back to the default layout. -/
theorem C4_geometry_amended (rp : ℤ → ℤ) :
    (∀ s, (∃ g, _effect_recognitions rp s = .ok g) ↔ s ≠ .SCENARIO_UNKNOWN) ∧
    _effect_recognitions rp .SCENARIO_UNKNOWN = .error "NotImplementedError" ∧
    (∀ s, (∃ g, _recognize_partners_geometry rp s = .ok g) ↔ s ≠ .SCENARIO_UNKNOWN) ∧
    _recognize_partners_geometry rp .SCENARIO_UNKNOWN = .error "KeyError" ∧
    (∀ s, s ≠ .SCENARIO_PROJECT_LARK →
      _iter_training_confirm_pos rp s = _iter_training_confirm_pos rp .SCENARIO_URA) := by
  refine ⟨?_, rfl, ?_, rfl, ?_⟩
  · intro s
    cases s <;> simp [_effect_recognitions]
  · intro s
    cases s <;> simp [_recognize_partners_geometry]
  · intro s hs
    cases s <;> simp_all [_iter_training_confirm_pos]

/-- C4 amended witness: the Climax scenario is not Project Lark, so its
training-confirm positions coincide with the default layout. -/
theorem C4_geometry_amended_witness :
    _iter_training_confirm_pos (fun v => v) .SCENARIO_CLIMAX =
      _iter_training_confirm_pos (fun v => v) .SCENARIO_URA :=
  (C4_geometry_amended (fun v => v)).2.2.2.2 .SCENARIO_CLIMAX (by decide)

/-- C5 counterexample: the OCR text "-5" parses successfully — the code
only drops leading plus signs, and Python `int()` accepts a minus sign —
so the recognizer returns -5, a negative value, contradicting the claim
that the returned value is always non-negative. -/
theorem C5_effect_ocr_counterexample :
    _recognize_red_effect "-5" = .ok (-5) ∧ (-5 : ℤ) < 0 :=
  ⟨rfl, by norm_num⟩

/-- C5 amended: in both effect-digit recognizer variants, when OCR is
reached: an empty OCR result yields 0; otherwise leading plus signs are
dropped and the remainder is parsed by Python `int()` — the parsed value
is the result, and it can be negative only when the OCR text carries a
minus sign; a non-numeric OCR result is a hard `ValueError` failure that
propagates. -/
theorem C5_effect_ocr_amended :
    (∀ nz hs, 100 ≤ nz → ¬ ((9 : ℚ) / 10 < hs) →
      _recognize_base_effect nz hs "" = .ok 0) ∧
    _recognize_red_effect "" = .ok 0 ∧
    (∀ nz hs text n, 100 ≤ nz → ¬ ((9 : ℚ) / 10 < hs) → text ≠ "" →
      pyInt (lstripPlus text) = some n →
      _recognize_base_effect nz hs text = .ok n ∧
      _recognize_red_effect text = .ok n ∧
      (n < 0 → '-' ∈ text.toList)) ∧
    (∀ nz hs text, 100 ≤ nz → ¬ ((9 : ℚ) / 10 < hs) → text ≠ "" →
      pyInt (lstripPlus text) = none →
      _recognize_base_effect nz hs text = .error "ValueError: invalid literal for int" ∧
      _recognize_red_effect text = .error "ValueError: invalid literal for int") := by
  refine ⟨?_, rfl, ?_, ?_⟩
  · intro nz hs h100 hhash
    unfold _recognize_base_effect
    have hlt : ¬ nz < 100 := by omega
    simp [hlt, hhash]
  · intro nz hs text n h100 hhash hne hp
    have hlt : ¬ nz < 100 := by omega
    refine ⟨?_, ?_, ?_⟩
    · unfold _recognize_base_effect
      simp only [hlt, if_false, hhash, hne]
      rw [hp]
    · unfold _recognize_red_effect
      simp only [hne, if_false]
      rw [hp]
    · intro hn
      have hmem : '-' ∈ (lstripPlus text).toList := pyInt_neg_has_minus hp hn
      have : (lstripPlus text).toList = text.toList.dropWhile (fun c => c = '+') := rfl
      rw [this] at hmem
      exact (List.dropWhile_sublist _).mem hmem
  · intro nz hs text h100 hhash hne hp
    have hlt : ¬ nz < 100 := by omega
    constructor
    · unfold _recognize_base_effect
      simp only [hlt, if_false, hhash, hne]
      rw [hp]
    · unfold _recognize_red_effect
      simp only [hne, if_false]
      rw [hp]

/-- C5 amended witness: the OCR text "+15" parses to 15 in both
recognizer variants. -/
theorem C5_effect_ocr_amended_witness :
    _recognize_base_effect 100 0 "+15" = .ok 15 ∧ _recognize_red_effect "+15" = .ok 15 :=
  ⟨(C5_effect_ocr_amended.2.2.1 100 0 "+15" 15 (by norm_num) (by norm_num)
      (by decide) rfl).1,
   (C5_effect_ocr_amended.2.2.1 100 0 "+15" 15 (by norm_num) (by norm_num)
      (by decide) rfl).2.1⟩

/-- C6: base-effect recognition short-circuits without consulting OCR: a
glyph mask with fewer than 100 foreground pixels yields 0, and on the
non-empty path a perceptual-hash similarity above 0.9 against the known
"+100" hash table yields exactly 100; in both situations the result does
not depend on the OCR text at all. -/
theorem C6_base_effect_shortcuts :
    (∀ nz hs text, nz < 100 → _recognize_base_effect nz hs text = .ok 0) ∧
    (∀ nz hs text, 100 ≤ nz → (9 : ℚ) / 10 < hs →
      _recognize_base_effect nz hs text = .ok 100) ∧
    (∀ nz hs t1 t2, nz < 100 ∨ (9 : ℚ) / 10 < hs →
      _recognize_base_effect nz hs t1 = _recognize_base_effect nz hs t2) := by
  refine ⟨?_, ?_, ?_⟩
  · intro nz hs text h
    unfold _recognize_base_effect
    simp [h]
  · intro nz hs text h100 hhash
    unfold _recognize_base_effect
    have hlt : ¬ nz < 100 := by omega
    simp [hlt, hhash]
  · intro nz hs t1 t2 h
    rcases h with h | h
    · unfold _recognize_base_effect
      simp [h]
    · unfold _recognize_base_effect
      by_cases hlt : nz < 100 <;> simp [hlt, h]

/-- C6 witness: with a populated glyph mask and hash similarity 0.95, the
recognizer returns 100 whatever OCR would have said. -/
theorem C6_base_effect_shortcuts_witness :
    _recognize_base_effect 150 (95 / 100) "garbage" = .ok 100 :=
  C6_base_effect_shortcuts.2.1 150 (95 / 100) "garbage" (by norm_num) (by norm_num)

/-- C7: for levels 1 through 5 and a positive maximum vitality, the
vitality estimator is positive for wisdom training; each of the other
four defined types gets a negative value whose magnitude strictly grows
with the level; a type outside the table yields 0; and every non-zero
output is exactly the table coefficient divided by the maximum
vitality. -/
theorem C7_estimate_vitality (mv : ℚ) (hmv : 0 < mv) (level : ℤ)
    (h1 : 1 ≤ level) (h5 : level ≤ 5) :
    (∃ q, _estimate_vitality .TYPE_WISDOM level mv = .ok q ∧ 0 < q) ∧
    (∀ t ∈ [TrainingType.TYPE_SPEED, .TYPE_STAMINA, .TYPE_POWER, .TYPE_GUTS],
      ∃ q, _estimate_vitality t level mv = .ok q ∧ q < 0) ∧
    (∀ t ∈ [TrainingType.TYPE_SPEED, .TYPE_STAMINA, .TYPE_POWER, .TYPE_GUTS],
      level ≤ 4 → ∀ q q2, _estimate_vitality t level mv = .ok q →
        _estimate_vitality t (level + 1) mv = .ok q2 → |q| < |q2|) ∧
    _estimate_vitality .TYPE_UNKNOWN level mv = .ok 0 ∧
    (∀ t q, _estimate_vitality t level mv = .ok q → q ≠ 0 →
      ∃ coeffs coeff, vit_data t = some coeffs ∧
        pyIndex coeffs (level - 1) = .ok coeff ∧ q = coeff / mv) := by
  interval_cases level
  all_goals refine ⟨⟨_, rfl, by (apply div_pos ?_ hmv); decide⟩, ?_, ?_, rfl, ?_⟩
  all_goals first
    | (intro t ht hle q q2 hq hq2
       fin_cases ht <;>
         (have hv1 := ok_inj hq
          have hv2 := ok_inj hq2
          subst hv1; subst hv2
          apply abs_div_lt_abs_div hmv
          decide))
    | (intro t ht hle q q2 hq hq2
       exact absurd hle (by norm_num))
    | (intro t ht
       fin_cases ht <;>
         exact ⟨_, rfl, by (apply div_neg_of_neg_of_pos ?_ hmv); decide⟩)
    | (intro t q hq hq0
       cases t <;>
         first
           | (have hv := ok_inj hq; subst hv; exact ⟨_, _, rfl, rfl, rfl⟩)
           | (have hv := ok_inj hq; exact absurd hv.symm hq0))

/-- C7 witness: at maximum vitality 100, a type outside the table yields
0 at level 3. -/
theorem C7_estimate_vitality_witness :
    _estimate_vitality .TYPE_UNKNOWN 3 100 = .ok 0 :=
  (C7_estimate_vitality 100 (by norm_num) 3 (by norm_num) (by norm_num)).2.2.2.1

/-- Two colors cannot both lie within distance bound B of a common probe
color when their own squared distance reaches 4 B (a squared-distance
triangle inequality). -/
theorem color_conflict {p e f : Color} {B : ℚ} (h1 : distSq p e < B)
    (h2 : distSq p f < B) (hef : 4 * B ≤ distSq e f) : False := by
  obtain ⟨p1, p2, p3⟩ := p
  obtain ⟨e1, e2, e3⟩ := e
  obtain ⟨f1, f2, f3⟩ := f
  simp only [distSq] at h1 h2 hef
  nlinarith [sq_nonneg (e1 - 2 * p1 + f1), sq_nonneg (e2 - 2 * p2 + f2),
    sq_nonneg (e3 - 2 * p3 + f3)]

/-- C8: the six pixel-signature patterns of the bond-level table are
mutually exclusive (no icon can fully match two distinct patterns, since
every pair of patterns expects two far-apart colors at a shared
position); the recognizer checks them in ascending level order with
first-full-match-wins; a pattern matches exactly when every one of its
(position, expected-color) checks has color similarity above 0.95; and an
icon matching no pattern yields the sentinel -1. -/
theorem C8_partner_level_table (pixel : ℤ × ℤ → Color) :
    (∀ (i j : ℕ) (si sj : List ((ℤ × ℤ) × Color)),
      level_spec[i]? = some si → level_spec[j]? = some sj → i ≠ j →
      ¬ (patternMatches pixel si = true ∧ patternMatches pixel sj = true)) ∧
    (∀ (i : ℕ) (si : List ((ℤ × ℤ) × Color)), level_spec[i]? = some si →
      patternMatches pixel si = true →
      (∀ (j : ℕ) (sj : List ((ℤ × ℤ) × Color)), j < i → level_spec[j]? = some sj →
        patternMatches pixel sj = false) →
      _recognize_partner_level pixel = (i : ℤ)) ∧
    ((∀ s ∈ level_spec, patternMatches pixel s = false) →
      _recognize_partner_level pixel = -1) ∧
    (∀ s, patternMatches pixel s = true ↔
      ∀ pc ∈ s, similarityExceeds (pixel pc.1) pc.2 (95 / 100) = true) := by
  refine ⟨?_, ?_, ?_, ?_⟩
  · rintro i j si sj hi hj hij ⟨h1, h2⟩
    have hi6 : i < 6 := by
      by_contra hc
      rw [List.getElem?_eq_none (by simp [level_spec]; omega)] at hi
      cases hi
    have hj6 : j < 6 := by
      by_contra hc
      rw [List.getElem?_eq_none (by simp [level_spec]; omega)] at hj
      cases hj
    interval_cases i <;> interval_cases j <;>
      first
        | exact absurd rfl hij
        | (simp only [level_spec, List.getElem?_cons_zero, List.getElem?_cons_succ,
             Option.some.injEq] at hi hj
           subst hi; subst hj
           simp only [patternMatches, List.all_cons, List.all_nil, Bool.and_eq_true,
             and_true, similarityExceeds, decide_eq_true_eq] at h1 h2
           first
             | (apply color_conflict h1.1 h2.1; norm_num [distSq]; done)
             | (apply color_conflict h1.2.1 h2.2.1; norm_num [distSq]; done))
  · intro i si hi hB hprev
    have hi6 : i < 6 := by
      by_contra hc
      rw [List.getElem?_eq_none (by simp [level_spec]; omega)] at hi
      cases hi
    interval_cases i <;>
      (simp only [level_spec, List.getElem?_cons_zero, List.getElem?_cons_succ,
         Option.some.injEq] at hi
       subst hi)
    · simp [_recognize_partner_level, _recognize_partner_level_go, level_spec, hB]
    · have f0 := hprev 0 _ (by norm_num) (by simp [level_spec]; rfl)
      simp [_recognize_partner_level, _recognize_partner_level_go, level_spec, f0, hB]
    · have f0 := hprev 0 _ (by norm_num) (by simp [level_spec]; rfl)
      have f1 := hprev 1 _ (by norm_num) (by simp [level_spec]; rfl)
      simp [_recognize_partner_level, _recognize_partner_level_go, level_spec,
        f0, f1, hB]
    · have f0 := hprev 0 _ (by norm_num) (by simp [level_spec]; rfl)
      have f1 := hprev 1 _ (by norm_num) (by simp [level_spec]; rfl)
      have f2 := hprev 2 _ (by norm_num) (by simp [level_spec]; rfl)
      simp [_recognize_partner_level, _recognize_partner_level_go, level_spec,
        f0, f1, f2, hB]
    · have f0 := hprev 0 _ (by norm_num) (by simp [level_spec]; rfl)
      have f1 := hprev 1 _ (by norm_num) (by simp [level_spec]; rfl)
      have f2 := hprev 2 _ (by norm_num) (by simp [level_spec]; rfl)
      have f3 := hprev 3 _ (by norm_num) (by simp [level_spec]; rfl)
      simp [_recognize_partner_level, _recognize_partner_level_go, level_spec,
        f0, f1, f2, f3, hB]
    · have f0 := hprev 0 _ (by norm_num) (by simp [level_spec]; rfl)
      have f1 := hprev 1 _ (by norm_num) (by simp [level_spec]; rfl)
      have f2 := hprev 2 _ (by norm_num) (by simp [level_spec]; rfl)
      have f3 := hprev 3 _ (by norm_num) (by simp [level_spec]; rfl)
      have f4 := hprev 4 _ (by norm_num) (by simp [level_spec]; rfl)
      simp [_recognize_partner_level, _recognize_partner_level_go, level_spec,
        f0, f1, f2, f3, f4, hB]
  · intro hnone
    simp only [level_spec, List.mem_cons, List.not_mem_nil, or_false,
      forall_eq_or_imp, forall_eq] at hnone
    obtain ⟨f0, f1, f2, f3, f4, f5⟩ := hnone
    simp [_recognize_partner_level, _recognize_partner_level_go, level_spec,
      f0, f1, f2, f3, f4, f5]
  · intro s
    simp [patternMatches, List.all_eq_true]

/-- C8 witness: an icon whose sampled pixels all show the empty-gauge
color matches the level-0 pattern (and no earlier one, vacuously), so the
recognizer returns bond level 0. -/
theorem C8_partner_level_table_witness :
    _recognize_partner_level (fun _ => (109, 108, 119)) = 0 :=
  (C8_partner_level_table (fun _ => (109, 108, 119))).2.1 0
    [((10, 65), (109, 108, 119)), ((20, 65), (109, 108, 119)),
     ((33, 65), (109, 108, 119)), ((43, 65), (109, 108, 119)),
     ((55, 65), (109, 108, 119))]
    rfl
    (by norm_num [patternMatches, similarityExceeds, distSq])
    (fun j sj h _ => absurd h (Nat.not_lt_zero j))

/-- C9: `_recognize_partner_icon` yields no Partner exactly when both the
recognized bond level and the recognized bond ratio are the negative
undetermined sentinel; in every other case a Partner record is produced;
and a region yielding no Partner simply ends the icon-enumeration loop of
`_recognize_partners` with the partners collected so far (the loop is a
total function into a plain list — no error is raised). -/
theorem C9_partner_icon_none_iff (ctx : Context) (ic : IconSignals) (bbox : Vector4) :
    (_recognize_partner_icon ctx ic bbox = none ↔
      (_recognize_partner_level ic.level_pixel < 0 ∧ _partner_soul ctx ic < 0)) ∧
    (¬ (_recognize_partner_level ic.level_pixel < 0 ∧ _partner_soul ctx ic < 0) →
      ∃ p, _recognize_partner_icon ctx ic bbox = some p) ∧
    (∀ (recog : Vector4 → Option Partner) (off bottom : ℤ) (n : ℕ) (b : Vector4),
      recog b = none → _recognize_partners_go recog off bottom (n + 1) b = []) := by
  refine ⟨?_, ?_, ?_⟩
  · unfold _recognize_partner_icon
    by_cases h : _recognize_partner_level ic.level_pixel < 0 ∧ _partner_soul ctx ic < 0
    · simp [h]
    · simp [h]
  · intro h
    unfold _recognize_partner_icon
    simp [h]
  · intro recog off bottom n b hb
    unfold _recognize_partners_go
    by_cases hlt : b.2.2.1 < bottom <;> simp [hlt, hb]

/-- C9 witness: a recognizer that yields no Partner on the first region
makes the enumeration loop return the empty list without error. -/
theorem C9_partner_icon_none_iff_witness :
    _recognize_partners_go (fun _ => none) 86 578 1 (448, 147, 516, 220) = [] :=
  (C9_partner_icon_none_iff ⟨.SCENARIO_URA, false, 100, [], []⟩
      ⟨fun _ => (0, 0, 0), 0, 0, false, 0, 0, 0, (0, 0, 0)⟩ (448, 147, 516, 220)).2.2
    (fun _ => none) 86 578 0 (448, 147, 516, 220) rfl

/-- C10: every Partner produced by `_recognize_partner_icon` satisfies:
soul burst forces `has_training` and a soul ratio of exactly 1; and in
any scenario other than Aoharu the Partner has `has_soul_burst` false,
`has_training` false and the undetermined soul ratio -1. -/
theorem C10_partner_flags (ctx : Context) (ic : IconSignals) (bbox : Vector4)
    (p : Partner) (h : _recognize_partner_icon ctx ic bbox = some p) :
    (p.has_soul_burst = true → p.has_training = true ∧ p.soul = 1) ∧
    (ctx.scenario ≠ .SCENARIO_AOHARU →
      p.has_soul_burst = false ∧ p.has_training = false ∧ p.soul = -1) := by
  unfold _recognize_partner_icon at h
  by_cases hc : _recognize_partner_level ic.level_pixel < 0 ∧ _partner_soul ctx ic < 0
  · simp [hc] at h
  · simp only [hc, if_false] at h
    obtain rfl : p = _ := ((Option.some.injEq _ _).mp h).symm
    constructor
    · intro hb
      simp only at hb
      exact ⟨by simp [hb], by simp [hb]⟩
    · intro hA
      refine ⟨?_, ?_, ?_⟩ <;>
        simp [_partner_has_soul_burst, _partner_has_training, _partner_soul, hA]

/-- C10 witness: in the URA scenario, an icon showing the empty bond
gauge yields a Partner with no soul burst, no training mark and the
undetermined soul ratio. -/
theorem C10_partner_flags_witness :
    (Partner.mk (448, 146, 516, 220) 0 (-1) false false false
        .TYPE_OTHER).has_soul_burst = false ∧
    (Partner.mk (448, 146, 516, 220) 0 (-1) false false false
        .TYPE_OTHER).has_training = false ∧
    (Partner.mk (448, 146, 516, 220) 0 (-1) false false false
        .TYPE_OTHER).soul = -1 :=
  (C10_partner_flags ⟨.SCENARIO_URA, false, 100, [], []⟩
      ⟨fun _ => (109, 108, 119), 0, 0, false, 0, 0, 0, (0, 0, 0)⟩ (448, 146, 516, 220)
      ⟨(448, 146, 516, 220), 0, -1, false, false, false, .TYPE_OTHER⟩
      (by norm_num [_recognize_partner_icon, _recognize_partner_level,
        _recognize_partner_level_go, level_spec, patternMatches, similarityExceeds,
        distSq, _partner_has_soul_burst, _partner_has_training, _partner_soul,
        _recognize_has_soul_burst, _recognize_has_training, _recognize_soul,
        _recognize_has_hint, _recognize_type_color, type_colors, List.find?])).2
    (by decide)

end AutoDerby
